import Mathlib

/-!
Shallow embedding of the schedule-generation engine of
`src/EduTech/study_plan_generator.py` (class `StudyPlanGenerator`), together
with theorems settling the frozen claims about it.

Modelling conventions:
* Python `float` values are embedded as `ℚ` (the float literals occurring in
  the source — 0.4, 0.2, 1.5, 1.3, 0.25, 0.5, 0.75, 0.3, 0.6, 0.85 — are read
  as the rationals they denote).
* Python `int` is `ℤ`; `int(x)` applied to a float truncates toward zero and
  is embedded as `pyInt`.
* Calendar dates are embedded as absolute day ordinals (`ℕ`): the source's
  `datetime.now() + timedelta(days=day)` rendered through `strftime("%Y-%m-%d")`
  is a strictly monotone injective map from ordinals to date strings, so
  `date = start_date + day` with `start_date` the generation date's ordinal.
  `datetime.now()` is modelled by the explicit parameter `start_date`.
* Code that can raise is embedded in `Except String`; the error strings name
  the Python exception raised at that program point.
* Python dicts keyed by the topic list are embedded as total functions
  (`String → ℤ`, `String → ℕ`) or association lists, as noted at each use.
-/

namespace EduTech

/-- Enum `DifficultyLevel` of the source. -/
inductive DifficultyLevel where
  | beginner
  | intermediate
  | advanced
  | expert
deriving DecidableEq

/-- `DifficultyLevel.value` (the `.value` string of the Python enum). -/
def DifficultyLevel.value : DifficultyLevel → String
  | .beginner => "beginner"
  | .intermediate => "intermediate"
  | .advanced => "advanced"
  | .expert => "expert"

/-- Enum `StudyGoal` of the source. -/
inductive StudyGoal where
  | exam_prep
  | skill_building
  | quick_review
  | deep_mastery
deriving DecidableEq

/-- `StudyGoal.value`. -/
def StudyGoal.value : StudyGoal → String
  | .exam_prep => "exam_prep"
  | .skill_building => "skill_building"
  | .quick_review => "quick_review"
  | .deep_mastery => "deep_mastery"

/-- Enum `TimePreference` of the source. -/
inductive TimePreference where
  | morning
  | afternoon
  | evening
  | night
  | flexible
deriving DecidableEq

/-- One break record: the dict
`{"after_minutes": .., "duration_minutes": .., "type": ..}` built by
`_calculate_breaks`. -/
structure BreakRec where
  after_minutes : ℤ
  duration_minutes : ℤ
  type : String
deriving DecidableEq

/-- Dataclass `StudySession` of the source (field for field; `date` is the
absolute day ordinal, see the module comment). -/
structure StudySession where
  date : ℕ
  time_slot : String
  duration_minutes : ℤ
  topic : String
  subtopics : List String
  difficulty : String
  study_techniques : List String
  breaks : List BreakRec
  resources : List String
  goals : List String
  pre_session_prep : String
  post_session_review : String
  estimated_focus_level : String
  completed : Bool := false
  notes : String := ""
  completed_at : Option String := none
deriving DecidableEq

/-- Milestone dict built by `_create_milestones`. -/
structure Milestone where
  day : ℤ
  name : String
  description : String
  celebration : String
deriving DecidableEq

/-- Dataclass `StudyPlan` of the source. -/
structure StudyPlan where
  plan_id : String
  created_at : String
  subject : String
  goal : String
  exam_date : Option String
  total_days : ℤ
  daily_hours : ℚ
  difficulty_level : String
  sessions : List StudySession
  milestones : List Milestone
  weekly_reviews : List String
  adaptive_recommendations : List String
  motivational_tips : List String
deriving DecidableEq

/-- Python `int(q)` on a float: truncation toward zero. -/
def pyInt (q : ℚ) : ℤ :=
  if 0 ≤ q then ⌊q⌋ else ⌈q⌉

/-- Python `f"{n:02d}"`: decimal rendering zero-padded to width 2. -/
def fmt2 (n : ℤ) : String :=
  if 0 ≤ n ∧ n < 10 then "0" ++ toString n else toString n

/-- Decimal digit value of a character, if it is a digit. -/
def digitVal (c : Char) : Option ℕ :=
  if '0' ≤ c ∧ c ≤ '9' then some (c.toNat - '0'.toNat) else none

/-- Accumulator loop of decimal parsing. -/
def parseNatAux : List Char → ℕ → Option ℕ
  | [], acc => some acc
  | c :: cs, acc =>
    match digitVal c with
    | some d => parseNatAux cs (acc * 10 + d)
    | none => none

/-- Parse a nonempty all-digit character list as a natural number
(the successful case of Python `int(s)` on the strings this program builds). -/
def parseNat (cs : List Char) : Option ℕ :=
  if cs.isEmpty then none else parseNatAux cs 0

/-- `int(time_slot.split(":")[0])`: the characters before the first `:`
parsed as a number; `none` models the `ValueError` Python raises when the
prefix is not a number. -/
def hourOf (s : String) : Option ℕ :=
  parseNat (s.data.takeWhile (fun c => c != ':'))

/-- Table `self.study_techniques` from `__init__`, accessed with
`.get(difficulty, self.study_techniques["intermediate"])`. -/
def study_techniques_table (difficulty : String) : List String :=
  if difficulty = "beginner" then
    ["Active Reading", "Note Taking", "Flashcards", "Summary Writing"]
  else if difficulty = "intermediate" then
    ["Feynman Technique", "Mind Mapping", "Practice Problems", "Peer Discussion"]
  else if difficulty = "advanced" then
    ["Deep Work Sessions", "Research Papers", "Project-Based Learning", "Teaching Others"]
  else if difficulty = "expert" then
    ["Original Research", "Advanced Problem Solving", "Critical Analysis", "Innovation Projects"]
  else
    ["Feynman Technique", "Mind Mapping", "Practice Problems", "Peer Discussion"]

/-- Table `style_techniques` local to `_select_study_techniques`, accessed
with `.get(learning_style, [])`. -/
def style_techniques_table (learning_style : String) : List String :=
  if learning_style = "visual" then ["Diagrams", "Color Coding", "Video Tutorials"]
  else if learning_style = "auditory" then ["Podcasts", "Discussions", "Read Aloud"]
  else if learning_style = "kinesthetic" then ["Hands-on Practice", "Real Projects", "Lab Work"]
  else if learning_style = "reading" then ["Textbooks", "Articles", "Documentation"]
  else []

/-- Per-topic weight computed inside `_calculate_topic_allocation`:
`(100 - knowledge) * weak_boost * spaced_boost` with
`weak_boost = 1.5` for weak areas else `1.0`, and `spaced_boost = 1.3`
when `30 <= knowledge <= 70` else `1.0`. -/
def weightOf (current_knowledge : String → ℤ) (weak_areas : List String)
    (topic : String) : ℚ :=
  let base_weight : ℚ := 100 - current_knowledge topic
  let weak_boost : ℚ := if topic ∈ weak_areas then 3 / 2 else 1
  let spaced_boost : ℚ :=
    if 30 ≤ current_knowledge topic ∧ current_knowledge topic ≤ 70 then 13 / 10 else 1
  base_weight * weak_boost * spaced_boost

/-- `total_weight = sum(weights.values())` for the given topic list
(the topic lists the engine is run on are duplicate-free, so the dict built
by the source has exactly these values). -/
def totalWeight (topics : List String) (current_knowledge : String → ℤ)
    (weak_areas : List String) : ℚ :=
  (topics.map (weightOf current_knowledge weak_areas)).sum

/-- `_calculate_topic_allocation`.  Returns the association list
`topic ↦ weight/total_weight * total_hours` in topic-list order.
When the topic list is empty the loop body never runs and the empty dict is
returned; otherwise a zero total weight makes the first loop iteration divide
by zero (`ZeroDivisionError`). -/
def _calculate_topic_allocation (topics : List String) (total_days : ℤ)
    (daily_hours : ℚ) (current_knowledge : String → ℤ)
    (weak_areas : List String) : Except String (List (String × ℚ)) :=
  let total_hours : ℚ := (total_days : ℚ) * daily_hours
  let total_weight := totalWeight topics current_knowledge weak_areas
  if topics.isEmpty then .ok []
  else if total_weight = 0 then .error "ZeroDivisionError: float division by zero"
  else .ok (topics.map (fun topic =>
    (topic, weightOf current_knowledge weak_areas topic / total_weight * total_hours)))

/-- Dict lookup `allocation[topic]` on the association list produced by
`_calculate_topic_allocation` (every topic the engine looks up is a key). -/
def lookupAlloc (l : List (String × ℚ)) (topic : String) : ℚ :=
  match l.find? (fun p => p.1 == topic) with
  | some p => p.2
  | none => 0

/-- Per-topic score computed inside `_select_topic_for_day`:
`remaining*0.4 + spaced_score*0.4 + days_since*0.2`, with
`remaining = allocation[topic] - study_count*1.5` and `spaced_score = 1000`
for never-studied topics, else `100 - min |days_since - i|` over the
intervals `[1, 3, 7, 14, 30]` (the nested `min` below is that list minimum). -/
def score (allocation : String → ℚ) (day : ℤ) (last_studied : String → ℤ)
    (study_count : String → ℕ) (topic : String) : ℚ :=
  let days_since : ℤ := day - last_studied topic
  let remaining : ℚ := allocation topic - (study_count topic : ℚ) * (3 / 2)
  let spaced_score : ℚ :=
    if study_count topic = 0 then 1000
    else
      ((100 - min (min (min (min (|days_since - 1|) (|days_since - 3|))
        (|days_since - 7|)) (|days_since - 14|)) (|days_since - 30|) : ℤ) : ℚ)
  remaining * (2 / 5) + spaced_score * (2 / 5) + (days_since : ℚ) * (1 / 5)

/-- Loop of Python `max(scores, key=scores.get)`: keep the current best,
replacing it only on a strictly greater score (first maximum wins). -/
def argmaxGo (f : String → ℚ) (best : String) : List String → String
  | [] => best
  | t :: ts => argmaxGo f (if f best < f t then t else best) ts

/-- Python `max(scores, key=scores.get)` over the insertion-ordered dict:
first topic of maximal score; `none` models the `ValueError` raised on an
empty sequence. -/
def argmaxTopic (f : String → ℚ) : List String → Option String
  | [] => none
  | t :: ts => some (argmaxGo f t ts)

/-- `_select_topic_for_day`. -/
def _select_topic_for_day (topics : List String) (allocation : String → ℚ)
    (day : ℤ) (last_studied : String → ℤ) (study_count : String → ℕ) :
    Option String :=
  argmaxTopic (score allocation day last_studied study_count) topics

/-- `_get_optimal_time_slot`. -/
def _get_optimal_time_slot (preference : TimePreference) (day : ℤ)
    (hours : ℚ) : String :=
  match preference with
  | .morning => "06:00 - " ++ fmt2 (6 + pyInt hours) ++ ":00"
  | .afternoon => "14:00 - " ++ fmt2 (14 + pyInt hours) ++ ":00"
  | .evening => "18:00 - " ++ fmt2 (18 + pyInt hours) ++ ":00"
  | .night => "21:00 - " ++ fmt2 (21 + pyInt hours) ++ ":00"
  | .flexible =>
    let slots : List String := ["07:00", "14:00", "18:00"]
    let start := slots.getD (day % (slots.length : ℤ)).toNat ""
    let end_hour := ((hourOf start).getD 0 : ℤ) + pyInt hours
    start ++ " - " ++ fmt2 end_hour ++ ":00"

/-- Loop body of `_calculate_breaks`, with explicit fuel.  Each `while`
iteration advances `elapsed` by at least one minute, so
`duration_minutes.toNat` iterations are enough (the wrapper below supplies
exactly that). -/
def calcBreaksAux : ℕ → ℤ → ℕ → ℤ → List BreakRec
  | 0, _, _, _ => []
  | fuel + 1, duration_minutes, completed_pomodoros, elapsed =>
    if elapsed < duration_minutes then
      let work_time := min 25 (duration_minutes - elapsed)
      let elapsed1 := elapsed + work_time
      let completed1 := completed_pomodoros + 1
      if elapsed1 < duration_minutes then
        let break_time : ℤ := if completed1 % 4 = 0 then 15 else 5
        { after_minutes := elapsed1, duration_minutes := break_time,
          type := if break_time = 15 then "long" else "short" } ::
          calcBreaksAux fuel duration_minutes completed1 (elapsed1 + break_time)
      else []
    else []

/-- `_calculate_breaks` (`pomodoro_cycle = 25`, `short_break = 5`,
`long_break = 15`). -/
def _calculate_breaks (duration_minutes : ℤ) : List BreakRec :=
  calcBreaksAux duration_minutes.toNat duration_minutes 0 0

/-- The local list `difficulties` of `_get_session_difficulty`. -/
def difficulties : List String := ["beginner", "intermediate", "advanced", "expert"]

/-- `_get_session_difficulty`.  `max(0, base_idx - 1)` is `ℕ` truncated
subtraction; `difficulties.index(..)` is `List.indexOf` (the value is always
present). -/
def _get_session_difficulty (base_difficulty : DifficultyLevel) (day : ℤ)
    (total_days : ℤ) : String :=
  let prog : ℚ := (day : ℚ) / (total_days : ℚ)
  let base_idx : ℕ := difficulties.indexOf base_difficulty.value
  if prog < 3 / 10 then difficulties.getD (base_idx - 1) ""
  else if prog < 3 / 5 then difficulties.getD base_idx ""
  else if prog < 17 / 20 then
    difficulties.getD (min (difficulties.length - 1) (base_idx + 1)) ""
  else
    difficulties.getD (min (difficulties.length - 1) (base_idx + 1)) ""

/-- `_select_study_techniques` (the `day` argument is unused in the source
too). -/
def _select_study_techniques (difficulty : String) (learning_style : String)
    (day : ℤ) : List String :=
  (study_techniques_table difficulty).take 2 ++
    (style_techniques_table learning_style).take 1

/-- `_generate_subtopics`. -/
def _generate_subtopics (topic : String) (day : ℤ) (goal : StudyGoal) :
    List String :=
  match goal with
  | .exam_prep =>
    [topic ++ " - Core Concepts", topic ++ " - Practice Problems",
     topic ++ " - Common Mistakes"]
  | .deep_mastery =>
    [topic ++ " - Theoretical Foundation", topic ++ " - Advanced Applications",
     topic ++ " - Research & Innovation"]
  | .quick_review =>
    [topic ++ " - Key Points Review", topic ++ " - Quick Quiz"]
  | _ =>
    [topic ++ " - Introduction", topic ++ " - Practice", topic ++ " - Application"]

/-- `_generate_session_goals` (`subtopics[0]`; the lists fed to it are never
empty). -/
def _generate_session_goals (topic : String) (subtopics : List String)
    (goal : StudyGoal) : List String :=
  ["Understand core concepts of " ++ topic,
   "Complete exercises on " ++ subtopics.headD "",
   "Achieve 80%+ on practice quiz"]

/-- `_get_learning_resources` (`.get(learning_style, resources["visual"])`;
the `topic` argument is unused in the source too). -/
def _get_learning_resources (topic : String) (learning_style : String) :
    List String :=
  if learning_style = "auditory" then
    ["Podcasts", "Audio lectures", "Study group discussions"]
  else if learning_style = "kinesthetic" then
    ["Hands-on projects", "Lab exercises", "Real-world applications"]
  else if learning_style = "reading" then
    ["Textbook chapters", "Research papers", "Online documentation"]
  else if learning_style = "visual" then
    ["YouTube tutorials", "Infographics", "Interactive simulations"]
  else
    ["YouTube tutorials", "Infographics", "Interactive simulations"]

/-- `_estimate_focus_level`; `none` models the `ValueError` of `int()` on a
non-numeric prefix. -/
def _estimate_focus_level (time_slot : String) (day : ℤ) : Option String :=
  match hourOf time_slot with
  | none => none
  | some hour =>
    let focus : String :=
      if 9 ≤ hour ∧ hour ≤ 11 ∨ 15 ≤ hour ∧ hour ≤ 17 then "High"
      else if 6 ≤ hour ∧ hour ≤ 9 ∨ 11 ≤ hour ∧ hour ≤ 15 ∨ 17 ≤ hour ∧ hour ≤ 20
        then "Medium"
      else "Low"
    some (if 20 < day ∧ focus = "High" then "Medium-High" else focus)

/-- List `preps` of `_get_pre_session_prep`. -/
def prepsList (topic : String) : List String :=
  ["Review notes from previous " ++ topic ++ " session",
   "Set up study environment (minimize distractions)",
   "Gather all materials and resources",
   "Do a 5-minute breathing exercise to focus",
   "Set specific goals for this session"]

/-- `_get_pre_session_prep` (`preps[day % len(preps)]`). -/
def _get_pre_session_prep (day : ℤ) (topic : String) : String :=
  (prepsList topic).getD (day % ((prepsList topic).length : ℤ)).toNat ""

/-- List `reviews` of `_get_post_session_review`. -/
def reviewsList : List String :=
  ["Summarize key learnings in your own words",
   "Create flashcards for important concepts",
   "Teach the concept to someone else (Feynman Technique)",
   "Identify 3 things you learned and 1 question you still have",
   "Update your study notes with new insights"]

/-- `_get_post_session_review` (`reviews[day % len(reviews)]`). -/
def _get_post_session_review (day : ℤ) (topic : String) : String :=
  reviewsList.getD (day % (reviewsList.length : ℤ)).toNat ""

/-- Day loop of `_generate_sessions`, recursing over the remaining day
indices (`List.range total_days.toNat` in the wrapper, mirroring
`for day in range(total_days)`), threading the `topic_last_studied` /
`topic_study_count` dicts as total functions. -/
def genSessionsAux (topics : List String) (allocation : String → ℚ)
    (total_days : ℤ) (daily_hours : ℚ) (difficulty : DifficultyLevel)
    (time_preference : TimePreference) (learning_style : String)
    (breaks_enabled : Bool) (goal : StudyGoal) (start_date : ℕ) :
    List ℕ → (String → ℤ) → (String → ℕ) → Except String (List StudySession)
  | [], _, _ => .ok []
  | day :: rest, last_studied, study_count =>
    let day_number : ℤ := (day : ℤ) + 1
    match _select_topic_for_day topics allocation day_number last_studied study_count with
    | none => .error "ValueError: max() arg is an empty sequence"
    | some topic =>
      let time_slot := _get_optimal_time_slot time_preference day_number daily_hours
      let duration : ℤ := pyInt (daily_hours * 60)
      let breaks := if breaks_enabled then _calculate_breaks duration else []
      let session_difficulty := _get_session_difficulty difficulty day_number total_days
      let techniques := _select_study_techniques session_difficulty learning_style day_number
      let subtopics := _generate_subtopics topic day_number goal
      let session_goals := _generate_session_goals topic subtopics goal
      let resources := _get_learning_resources topic learning_style
      match _estimate_focus_level time_slot day_number with
      | none => .error "ValueError: invalid literal for int() with base 10"
      | some focus_level =>
        let session : StudySession :=
          { date := start_date + day
            time_slot := time_slot
            duration_minutes := duration
            topic := topic
            subtopics := subtopics
            difficulty := session_difficulty
            study_techniques := techniques
            breaks := breaks
            resources := resources
            goals := session_goals
            pre_session_prep := _get_pre_session_prep day_number topic
            post_session_review := _get_post_session_review day_number topic
            estimated_focus_level := focus_level }
        match genSessionsAux topics allocation total_days daily_hours difficulty
            time_preference learning_style breaks_enabled goal start_date rest
            (fun t => if t = topic then day_number else last_studied t)
            (fun t => if t = topic then study_count t + 1 else study_count t) with
        | .error e => .error e
        | .ok sessions => .ok (session :: sessions)

/-- `_generate_sessions` (`range(total_days)` has `total_days.toNat`
elements; the tracking dicts start at `-999` / `0` for every topic). -/
def _generate_sessions (topics : List String) (allocation : String → ℚ)
    (total_days : ℤ) (daily_hours : ℚ) (difficulty : DifficultyLevel)
    (time_preference : TimePreference) (learning_style : String)
    (breaks_enabled : Bool) (goal : StudyGoal) (start_date : ℕ) :
    Except String (List StudySession) :=
  genSessionsAux topics allocation total_days daily_hours difficulty
    time_preference learning_style breaks_enabled goal start_date
    (List.range total_days.toNat) (fun _ => -999) (fun _ => 0)

/-- `_create_milestones` (the loop over the four fixed day fractions and
names, unrolled; `int(total_days * 0.25)` etc. are `pyInt` of the exact
products). -/
def _create_milestones (topics : List String) (total_days : ℤ)
    (goal : StudyGoal) : List Milestone :=
  [{ day := pyInt ((total_days : ℚ) * (1 / 4)), name := "Foundation Complete",
     description := "Complete 25% of study plan",
     celebration := "Take a day to review and celebrate your progress!" },
   { day := pyInt ((total_days : ℚ) * (1 / 2)), name := "Halfway Champion",
     description := "Complete 50% of study plan",
     celebration := "Take a day to review and celebrate your progress!" },
   { day := pyInt ((total_days : ℚ) * (3 / 4)), name := "Advanced Mastery",
     description := "Complete 75% of study plan",
     celebration := "Take a day to review and celebrate your progress!" },
   { day := total_days, name := "Goal Achieved",
     description := "Complete 100% of study plan",
     celebration := "Take a day to review and celebrate your progress!" }]

/-- `_generate_weekly_reviews`.  The source's `while` loop collects
`week = 7, 14, …` as long as `week ≤ total_days`, i.e. weeks
`1 … ⌊total_days / 7⌋`; each entry renders `datetime.now() + week` days
(ordinal `start_date + week`, see the module comment on dates). -/
def _generate_weekly_reviews (total_days : ℤ) (start_date : ℕ) : List String :=
  (List.range ((max 0 total_days).toNat / 7)).map (fun k =>
    "Week " ++ toString (k + 1) ++ " Review - " ++ toString (start_date + 7 * (k + 1)))

/-- `_generate_recommendations` (emoji prefixes of the source strings are
elided; the selection logic is kept exactly). -/
def _generate_recommendations (difficulty : DifficultyLevel) (goal : StudyGoal)
    (daily_hours : ℚ) (learning_style : String) : List String :=
  (if daily_hours < 2 then
    ["Consider increasing study time to 2-3 hours for better retention"] else []) ++
  (if difficulty = .beginner then
    ["Start with foundational concepts before moving to complex topics"] else []) ++
  (if goal = .exam_prep then
    ["Focus on practice tests in the last 20% of your study plan"] else []) ++
  ["Your " ++ learning_style ++ " learning style works best with interactive resources",
   "Use spaced repetition: review topics after 1, 3, 7, and 14 days",
   "Take breaks every 25-30 minutes to maintain peak focus"]

/-- `_generate_motivational_tips` (static list, returned in full; emoji
prefixes elided). -/
def _generate_motivational_tips (total_days : ℤ) (goal : StudyGoal) : List String :=
  ["Every expert was once a beginner. Keep going!",
   "Consistency beats intensity. Show up every day.",
   "Focus on progress, not perfection.",
   "Your future self will thank you for starting today.",
   "Difficult roads often lead to beautiful destinations.",
   "Learning is a journey, not a destination.",
   "Small daily improvements lead to stunning results.",
   "You're investing in the best asset - yourself!"]

/-- `generate_plan`.  `datetime.now()` is the parameter `start_date`
(plan id and creation timestamp are renderings of it); `current_knowledge`
defaults to `0` per topic and `weak_areas` to `[]` when `none`, as in the
source.  Exceptions raised by the allocation or the session loop propagate. -/
def generate_plan (subject : String) (topics : List String) (goal : StudyGoal)
    (difficulty : DifficultyLevel) (total_days : ℤ) (daily_hours : ℚ)
    (exam_date : Option String) (time_preference : TimePreference)
    (learning_style : String) (current_knowledge : Option (String → ℤ))
    (weak_areas : Option (List String)) (breaks_enabled : Bool)
    (start_date : ℕ) : Except String StudyPlan :=
  let knowledge : String → ℤ := current_knowledge.getD (fun _ => 0)
  let weak : List String := weak_areas.getD []
  match _calculate_topic_allocation topics total_days daily_hours knowledge weak with
  | .error e => .error e
  | .ok topic_allocation =>
    match _generate_sessions topics (lookupAlloc topic_allocation) total_days
        daily_hours difficulty time_preference learning_style breaks_enabled
        goal start_date with
    | .error e => .error e
    | .ok sessions =>
      .ok { plan_id := "plan_" ++ toString start_date
            created_at := toString start_date
            subject := subject
            goal := goal.value
            exam_date := exam_date
            total_days := total_days
            daily_hours := daily_hours
            difficulty_level := difficulty.value
            sessions := sessions
            milestones := _create_milestones topics total_days goal
            weekly_reviews := _generate_weekly_reviews total_days start_date
            adaptive_recommendations :=
              _generate_recommendations difficulty goal daily_hours learning_style
            motivational_tips := _generate_motivational_tips total_days goal }

/-- Sessions of a generation result (empty when the call raised). -/
def sessionsOf (r : Except String StudyPlan) : List StudySession :=
  match r with
  | .ok p => p.sessions
  | .error _ => []

/-- Inner loop of `update_session_progress`: walk the session list, update
the first session whose `date` matches (setting `completed`, `notes`,
`completed_at` only) and stop. -/
def updateSessionInList (sessions : List StudySession) (session_date : ℕ)
    (completed : Bool) (notes : String) (now : String) : List StudySession :=
  match sessions with
  | [] => []
  | s :: rest =>
    if s.date = session_date then
      { s with completed := completed, notes := notes, completed_at := some now } :: rest
    else
      s :: updateSessionInList rest session_date completed notes now

/-- Outer loop of `update_session_progress`: find the first plan whose
`plan_id` matches, update its session list and stop. -/
def updatePlanList (plans : List StudyPlan) (plan_id : String)
    (session_date : ℕ) (completed : Bool) (notes : String) (now : String) :
    List StudyPlan :=
  match plans with
  | [] => []
  | p :: rest =>
    if p.plan_id = plan_id then
      { p with sessions := updateSessionInList p.sessions session_date completed notes now } :: rest
    else
      p :: updatePlanList rest plan_id session_date completed notes now

/-- `update_session_progress` over the persisted `study_plans` list
(the store is the in-memory document; file I/O errors are out of scope).
`datetime.now().isoformat()` is the parameter `now`.  The source returns
`True` on every successful write-back, matched or not. -/
def update_session_progress (store : List StudyPlan) (plan_id : String)
    (session_date : ℕ) (completed : Bool) (notes : String) (now : String) :
    List StudyPlan × Bool :=
  (updatePlanList store plan_id session_date completed notes now, true)

/-- The exception of a generation result, if it raised one. -/
def errorOf {α : Type} (r : Except String α) : Option String :=
  match r with
  | .error e => some e
  | .ok _ => none

/-- The session `generate_plan "S" ["A"] exam_prep beginner 1 1 none morning
"visual" none none false 0` produces (used as a concrete instance below). -/
def sWit : StudySession :=
  { date := 0
    time_slot := "06:00 - 07:00"
    duration_minutes := 60
    topic := "A"
    subtopics := ["A - Core Concepts", "A - Practice Problems", "A - Common Mistakes"]
    difficulty := "intermediate"
    study_techniques := ["Feynman Technique", "Mind Mapping", "Diagrams"]
    breaks := []
    resources := ["YouTube tutorials", "Infographics", "Interactive simulations"]
    goals := ["Understand core concepts of A", "Complete exercises on A - Core Concepts",
              "Achieve 80%+ on practice quiz"]
    pre_session_prep := "Set up study environment (minimize distractions)"
    post_session_review := "Create flashcards for important concepts"
    estimated_focus_level := "Medium" }

/-- A concrete stored plan with one session dated day 0 (used as a concrete
store entry below). -/
def pWit : StudyPlan :=
  { plan_id := "p1"
    created_at := "t0"
    subject := "S"
    goal := "exam_prep"
    exam_date := none
    total_days := 1
    daily_hours := 1
    difficulty_level := "beginner"
    sessions := [sWit]
    milestones := []
    weekly_reviews := []
    adaptive_recommendations := []
    motivational_tips := [] }


/-! ## Theorems -/

/-- Loop invariant of Python `max(scores, key=scores.get)`: when every other
element scores strictly below `u`, the running best ends at `u`. -/
lemma argmaxGo_eq (f : String → ℚ) (u : String) :
    ∀ (ts : List String) (best : String),
      (best = u ∨ f best < f u) →
      (∀ t ∈ ts, t ≠ u → f t < f u) →
      (u ∈ ts ∨ best = u) →
      argmaxGo f best ts = u := by
  intro ts
  induction ts with
  | nil =>
    intro best h1 h2 h3
    rcases h3 with h3 | h3
    · cases h3
    · simpa [argmaxGo] using h3
  | cons t ts ih =>
    intro best h1 h2 h3
    simp only [argmaxGo]
    by_cases htu : t = u
    · rw [htu]
      rcases h1 with h1 | hlt
      · rw [h1, if_neg (lt_irrefl _)]
        exact ih u (Or.inl rfl) (fun s hs hsne => h2 s (List.mem_cons_of_mem _ hs) hsne)
          (Or.inr rfl)
      · rw [if_pos hlt]
        exact ih u (Or.inl rfl) (fun s hs hsne => h2 s (List.mem_cons_of_mem _ hs) hsne)
          (Or.inr rfl)
    · have hft : f t < f u := h2 t (List.mem_cons_self t ts) htu
      have hmem : u ∈ ts ∨ best = u := by
        rcases h3 with h3 | h3
        · rcases List.mem_cons.mp h3 with rfl | h3
          · exact absurd rfl htu
          · exact Or.inl h3
        · exact Or.inr h3
      by_cases hc : f best < f t
      · rw [if_pos hc]
        have hmem' : u ∈ ts := by
          rcases hmem with h | rfl
          · exact h
          · exact absurd (hc.trans hft) (lt_irrefl _)
        exact ih t (Or.inr hft) (fun s hs hsne => h2 s (List.mem_cons_of_mem _ hs) hsne)
          (Or.inl hmem')
      · rw [if_neg hc]
        exact ih best h1 (fun s hs hsne => h2 s (List.mem_cons_of_mem _ hs) hsne) hmem

/-- A strictly maximal element is what `max(scores, key=scores.get)` returns. -/
lemma argmaxTopic_eq (f : String → ℚ) (l : List String) (u : String)
    (hu : u ∈ l) (hlt : ∀ t ∈ l, t ≠ u → f t < f u) :
    argmaxTopic f l = some u := by
  cases l with
  | nil => cases hu
  | cons t ts =>
    simp only [argmaxTopic, Option.some_inj]
    by_cases htu : t = u
    · exact htu ▸ argmaxGo_eq f u ts t (Or.inl htu)
        (fun s hs hsne => hlt s (List.mem_cons_of_mem _ hs) hsne) (Or.inr htu)
    · have h : u ∈ ts := by
        rcases List.mem_cons.mp hu with rfl | h
        · exact absurd rfl htu
        · exact h
      exact argmaxGo_eq f u ts t (Or.inr (hlt t (List.mem_cons_self t ts) htu))
        (fun s hs hsne => hlt s (List.mem_cons_of_mem _ hs) hsne) (Or.inl h)

/-- Closed form of the score of a never-studied topic with the `-999`
sentinel: `0.4*remaining + 0.4*1000 + 0.2*(day + 999)`. -/
lemma score_of_unstudied (allocation : String → ℚ) (day : ℤ)
    (last_studied : String → ℤ) (study_count : String → ℕ) (u : String)
    (hc : study_count u = 0) (hl : last_studied u = -999) :
    score allocation day last_studied study_count u =
      allocation u * (2 / 5) + 1000 * (2 / 5) + ((day : ℚ) + 999) * (1 / 5) := by
  simp only [score, hc, hl, if_pos rfl]
  push_cast
  ring

/-- Upper bound on the score of an already-studied topic whose allocation is
at most `H` and whose last-studied day lies in `[1, day]`: the spaced term is
at most `100` and the recency term at most `day - 1`. -/
lemma score_le_of_studied (allocation : String → ℚ) (day : ℤ)
    (last_studied : String → ℤ) (study_count : String → ℕ) (t : String) (H : ℚ)
    (hc : study_count t ≠ 0) (h1 : 1 ≤ last_studied t) (h2 : last_studied t ≤ day)
    (hA : allocation t ≤ H) :
    score allocation day last_studied study_count t ≤
      (H - 3 / 2) * (2 / 5) + 100 * (2 / 5) + ((day : ℚ) - 1) * (1 / 5) := by
  have hm : (100 - min (min (min (min (|day - last_studied t - 1|)
      (|day - last_studied t - 3|)) (|day - last_studied t - 7|))
      (|day - last_studied t - 14|)) (|day - last_studied t - 30|) : ℤ) ≤ 100 := by
    have := le_min (le_min (le_min (le_min (abs_nonneg (day - last_studied t - 1))
      (abs_nonneg (day - last_studied t - 3))) (abs_nonneg (day - last_studied t - 7)))
      (abs_nonneg (day - last_studied t - 14))) (abs_nonneg (day - last_studied t - 30))
    omega
  have hmQ : ((100 - min (min (min (min (|day - last_studied t - 1|)
      (|day - last_studied t - 3|)) (|day - last_studied t - 7|))
      (|day - last_studied t - 14|)) (|day - last_studied t - 30|) : ℤ) : ℚ) ≤ 100 := by
    exact_mod_cast hm
  have hsc : (1 : ℚ) ≤ (study_count t : ℚ) := by
    exact_mod_cast Nat.one_le_iff_ne_zero.mpr hc
  have hds : ((day - last_studied t : ℤ) : ℚ) ≤ (day : ℚ) - 1 := by
    push_cast
    have : (1 : ℚ) ≤ (last_studied t : ℚ) := by exact_mod_cast h1
    linarith
  simp only [score, if_neg hc]
  linarith

/-- C4: on any day and history where exactly one topic is never studied
(`study_count = 0`, sentinel `last_studied = -999`) and every other topic has
been studied on some day in `[1, day]`, `_select_topic_for_day` picks the
never-studied topic, as long as every other topic's allocation (bounded by
`total_days * daily_hours`, instantiated here as the bound `H`) stays below
`1400` hours, so that its remaining-allocation term cannot offset the `1000`
spaced score. -/
theorem c4_never_studied_selected (topics : List String)
    (allocation : String → ℚ) (day : ℤ) (last_studied : String → ℤ)
    (study_count : String → ℕ) (u : String) (H : ℚ)
    (hu : u ∈ topics) (hcu : study_count u = 0) (hlu : last_studied u = -999)
    (hday : 1 ≤ day) (hau : 0 ≤ allocation u) (hH : H < 1400)
    (hoth : ∀ t ∈ topics, t ≠ u →
      study_count t ≠ 0 ∧ 1 ≤ last_studied t ∧ last_studied t ≤ day ∧ allocation t ≤ H) :
    _select_topic_for_day topics allocation day last_studied study_count = some u := by
  apply argmaxTopic_eq _ _ _ hu
  intro t ht htne
  obtain ⟨hc, h1, h2, hA⟩ := hoth t ht htne
  have hle := score_le_of_studied allocation day last_studied study_count t H hc h1 h2 hA
  have heq := score_of_unstudied allocation day last_studied study_count u hcu hlu
  have hdayQ : (1 : ℚ) ≤ (day : ℚ) := by exact_mod_cast hday
  rw [heq]
  linarith

/-- Witness for C4: on day 2 with topics `A` (studied on day 1) and `B`
(never studied), the selector returns `B`. -/
theorem c4_witness :
    "B" ∈ ["A", "B"] ∧
      _select_topic_for_day ["A", "B"] (fun _ => (2 : ℚ)) 2
        (fun t => if t = "B" then -999 else 1) (fun t => if t = "B" then 0 else 1) =
        some "B" :=
  ⟨by decide,
    c4_never_studied_selected ["A", "B"] (fun _ => (2 : ℚ)) 2
      (fun t => if t = "B" then -999 else 1) (fun t => if t = "B" then 0 else 1) "B" 10
      (by decide) (by decide) (by decide) (by decide) (by norm_num) (by norm_num)
      (by
        intro t ht htne
        rcases List.mem_cons.mp ht with rfl | ht
        · exact ⟨by decide, by decide, by decide, by norm_num⟩
        · rcases List.mem_cons.mp ht with rfl | ht
          · exact absurd rfl htne
          · cases ht)⟩


/-- When the parsed hour is in the Medium bands and not in the High bands,
`_estimate_focus_level` returns "Medium" on every day (the day-fatigue rule
only rewrites "High"). -/
lemma estimate_of_hour_medium (s : String) (dday : ℤ) (h : ℕ)
    (hh : hourOf s = some h)
    (hHigh : ¬(9 ≤ h ∧ h ≤ 11 ∨ 15 ≤ h ∧ h ≤ 17))
    (hMed : 6 ≤ h ∧ h ≤ 9 ∨ 11 ≤ h ∧ h ≤ 15 ∨ 17 ≤ h ∧ h ≤ 20) :
    _estimate_focus_level s dday = some "Medium" := by
  unfold _estimate_focus_level
  rw [hh]
  simp only [if_neg hHigh, if_pos hMed]
  rw [if_neg]
  rintro ⟨-, h2⟩
  exact absurd h2 (by decide)

/-- When the parsed hour is in neither the High nor the Medium bands,
`_estimate_focus_level` returns "Low" on every day. -/
lemma estimate_of_hour_low (s : String) (dday : ℤ) (h : ℕ)
    (hh : hourOf s = some h)
    (hHigh : ¬(9 ≤ h ∧ h ≤ 11 ∨ 15 ≤ h ∧ h ≤ 17))
    (hMed : ¬(6 ≤ h ∧ h ≤ 9 ∨ 11 ≤ h ∧ h ≤ 15 ∨ 17 ≤ h ∧ h ≤ 20)) :
    _estimate_focus_level s dday = some "Low" := by
  unfold _estimate_focus_level
  rw [hh]
  simp only [if_neg hHigh, if_neg hMed]
  rw [if_neg]
  rintro ⟨-, h2⟩
  exact absurd h2 (by decide)

/-- The flexible branch of `_get_optimal_time_slot` starts at 07:00, 14:00
or 18:00 (whichever `day % 3` selects). -/
lemma flexible_slot_start (day : ℤ) (hours : ℚ) :
    ∃ start ∈ ["07:00", "14:00", "18:00"],
      _get_optimal_time_slot .flexible day hours =
        start ++ " - " ++ fmt2 (((hourOf start).getD 0 : ℤ) + pyInt hours) ++ ":00" := by
  have h3 : (day % 3).toNat = 0 ∨ (day % 3).toNat = 1 ∨ (day % 3).toNat = 2 := by omega
  rcases h3 with h | h | h
  · refine ⟨"07:00", by decide, ?_⟩
    simp only [_get_optimal_time_slot]
    norm_num [h]
  · refine ⟨"14:00", by decide, ?_⟩
    simp only [_get_optimal_time_slot]
    norm_num [h]
  · refine ⟨"18:00", by decide, ?_⟩
    simp only [_get_optimal_time_slot]
    norm_num [h]

/-- Every time slot the engine can produce (start hours 6, 14, 18, 21, 7)
is estimated as "Medium" or "Low": none of these start hours lies in the
High bands `[9,11]` or `[15,17]`. -/
lemma focus_slot (pref : TimePreference) (day : ℤ) (hours : ℚ) (dday : ℤ) :
    _estimate_focus_level (_get_optimal_time_slot pref day hours) dday = some "Medium" ∨
      _estimate_focus_level (_get_optimal_time_slot pref day hours) dday = some "Low" := by
  cases pref with
  | morning => exact Or.inl (estimate_of_hour_medium _ dday 6 rfl (by decide) (by decide))
  | afternoon => exact Or.inl (estimate_of_hour_medium _ dday 14 rfl (by decide) (by decide))
  | evening => exact Or.inl (estimate_of_hour_medium _ dday 18 rfl (by decide) (by decide))
  | night => exact Or.inr (estimate_of_hour_low _ dday 21 rfl (by decide) (by decide))
  | flexible =>
    obtain ⟨start, hs, heq⟩ := flexible_slot_start day hours
    rcases List.mem_cons.mp hs with rfl | hs
    · exact Or.inl (estimate_of_hour_medium _ dday 7 (by rw [heq]; rfl) (by decide) (by decide))
    · rcases List.mem_cons.mp hs with rfl | hs
      · exact Or.inl (estimate_of_hour_medium _ dday 14 (by rw [heq]; rfl) (by decide) (by decide))
      · rcases List.mem_cons.mp hs with rfl | hs
        · exact Or.inl (estimate_of_hour_medium _ dday 18 (by rw [heq]; rfl) (by decide) (by decide))
        · cases hs

/-- Whatever focus label `_estimate_focus_level` yields on an engine-produced
slot is "Medium" or "Low". -/
lemma focusSome (pref : TimePreference) (day : ℤ) (hours : ℚ) (dday : ℤ)
    (f : String)
    (h : _estimate_focus_level (_get_optimal_time_slot pref day hours) dday = some f) :
    f = "Medium" ∨ f = "Low" := by
  rcases focus_slot pref day hours dday with h2 | h2 <;> rw [h] at h2
  · exact Or.inl (Option.some_inj.mp h2)
  · exact Or.inr (Option.some_inj.mp h2)


/-- Invariants of the day loop: on success, the produced sessions carry the
dates `start_date + day` in day order, a flat duration `int(daily_hours*60)`,
and a focus label of "Medium" or "Low". -/
lemma genAux_spec (topics : List String) (allocation : String → ℚ)
    (total_days : ℤ) (daily_hours : ℚ) (difficulty : DifficultyLevel)
    (time_preference : TimePreference) (learning_style : String)
    (breaks_enabled : Bool) (goal : StudyGoal) (start_date : ℕ) :
    ∀ (days : List ℕ) (ls : String → ℤ) (sc : String → ℕ) (ss : List StudySession),
      genSessionsAux topics allocation total_days daily_hours difficulty
        time_preference learning_style breaks_enabled goal start_date days ls sc = .ok ss →
      ss.map (fun s => s.date) = days.map (fun d => start_date + d) ∧
      ∀ s ∈ ss, s.duration_minutes = pyInt (daily_hours * 60) ∧
        (s.estimated_focus_level = "Medium" ∨ s.estimated_focus_level = "Low") := by
  intro days
  induction days with
  | nil =>
    intro ls sc ss h
    simp only [genSessionsAux] at h
    injection h with h
    subst h
    simp
  | cons d rest ih =>
    intro ls sc ss h
    simp only [genSessionsAux] at h
    split at h
    · simp at h
    · rename_i topic hsel
      split at h
      · simp at h
      · rename_i focus_level hfocus
        split at h
        · simp at h
        · rename_i ss' hrec
          injection h with h
          subst h
          obtain ⟨hdates, hfields⟩ := ih _ _ ss' hrec
          constructor
          · simp [hdates]
          · intro s hs
            rcases List.mem_cons.mp hs with rfl | hs
            · exact ⟨rfl, focusSome time_preference ((d : ℤ) + 1) daily_hours
                ((d : ℤ) + 1) focus_level hfocus⟩
            · exact hfields s hs

/-- With a nonempty topic list the day loop never raises: topic selection
always returns a topic and the slot's hour always parses. -/
lemma genAux_ok (topics : List String) (allocation : String → ℚ)
    (total_days : ℤ) (daily_hours : ℚ) (difficulty : DifficultyLevel)
    (time_preference : TimePreference) (learning_style : String)
    (breaks_enabled : Bool) (goal : StudyGoal) (start_date : ℕ)
    (hne : topics ≠ []) :
    ∀ (days : List ℕ) (ls : String → ℤ) (sc : String → ℕ),
      ∃ ss, genSessionsAux topics allocation total_days daily_hours difficulty
        time_preference learning_style breaks_enabled goal start_date days ls sc = .ok ss := by
  intro days
  induction days with
  | nil => intro ls sc; exact ⟨[], rfl⟩
  | cons d rest ih =>
    intro ls sc
    obtain ⟨topic, hsel⟩ :
        ∃ t, _select_topic_for_day topics allocation ((d : ℤ) + 1) ls sc = some t := by
      cases topics with
      | nil => exact absurd rfl hne
      | cons a as => exact ⟨argmaxGo (score allocation ((d : ℤ) + 1) ls sc) a as, rfl⟩
    obtain ⟨f, hf⟩ :
        ∃ f, _estimate_focus_level
          (_get_optimal_time_slot time_preference ((d : ℤ) + 1) daily_hours)
          ((d : ℤ) + 1) = some f := by
      rcases focus_slot time_preference ((d : ℤ) + 1) daily_hours ((d : ℤ) + 1) with h | h
      · exact ⟨_, h⟩
      · exact ⟨_, h⟩
    obtain ⟨ss, hss⟩ := ih (fun t => if t = topic then (d : ℤ) + 1 else ls t)
      (fun t => if t = topic then sc t + 1 else sc t)
    rcases hres : genSessionsAux topics allocation total_days daily_hours difficulty
        time_preference learning_style breaks_enabled goal start_date (d :: rest) ls sc
      with e | ss'
    · exfalso
      simp only [genSessionsAux, hsel, hf, hss] at hres
      exact absurd hres (by simp)
    · exact ⟨ss', rfl⟩


/-- C1: for valid inputs (nonempty topics, positive total_days and
daily_hours) whose allocation weights do not sum to zero (otherwise the
source raises before any session exists and no plan is returned),
`generate_plan` returns a plan with exactly `total_days` sessions whose dates
are the `total_days` consecutive day ordinals starting at the generation
date, strictly increasing, hence pairwise distinct. -/
theorem c1_sessions_and_dates (subject : String) (topics : List String)
    (goal : StudyGoal) (difficulty : DifficultyLevel) (total_days : ℤ)
    (daily_hours : ℚ) (exam_date : Option String)
    (time_preference : TimePreference) (learning_style : String)
    (current_knowledge : Option (String → ℤ)) (weak_areas : Option (List String))
    (breaks_enabled : Bool) (start_date : ℕ)
    (h1 : topics ≠ []) (h2 : 0 < total_days) (h3 : 0 < daily_hours)
    (hw : totalWeight topics (current_knowledge.getD (fun _ => 0))
      (weak_areas.getD []) ≠ 0) :
    ∃ p, generate_plan subject topics goal difficulty total_days daily_hours
        exam_date time_preference learning_style current_knowledge weak_areas
        breaks_enabled start_date = .ok p ∧
      p.sessions.length = total_days.toNat ∧
      p.sessions.map (fun s => s.date) =
        (List.range total_days.toNat).map (fun d => start_date + d) ∧
      (p.sessions.map (fun s => s.date)).Pairwise (· < ·) := by
  have halloc : _calculate_topic_allocation topics total_days daily_hours
      (current_knowledge.getD (fun _ => 0)) (weak_areas.getD []) =
      .ok (topics.map (fun topic =>
        (topic, weightOf (current_knowledge.getD (fun _ => 0)) (weak_areas.getD []) topic /
          totalWeight topics (current_knowledge.getD (fun _ => 0)) (weak_areas.getD []) *
          ((total_days : ℚ) * daily_hours)))) := by
    simp only [_calculate_topic_allocation]
    rw [if_neg (by simpa using h1), if_neg hw]
  obtain ⟨ss, hss⟩ := genAux_ok topics
    (lookupAlloc (topics.map (fun topic =>
      (topic, weightOf (current_knowledge.getD (fun _ => 0)) (weak_areas.getD []) topic /
        totalWeight topics (current_knowledge.getD (fun _ => 0)) (weak_areas.getD []) *
        ((total_days : ℚ) * daily_hours)))))
    total_days daily_hours difficulty time_preference learning_style breaks_enabled
    goal start_date h1 (List.range total_days.toNat) (fun _ => -999) (fun _ => 0)
  obtain ⟨hdates, -⟩ := genAux_spec topics _ total_days daily_hours difficulty
    time_preference learning_style breaks_enabled goal start_date
    (List.range total_days.toNat) (fun _ => -999) (fun _ => 0) ss hss
  refine ⟨{ plan_id := "plan_" ++ toString start_date
            created_at := toString start_date
            subject := subject
            goal := goal.value
            exam_date := exam_date
            total_days := total_days
            daily_hours := daily_hours
            difficulty_level := difficulty.value
            sessions := ss
            milestones := _create_milestones topics total_days goal
            weekly_reviews := _generate_weekly_reviews total_days start_date
            adaptive_recommendations :=
              _generate_recommendations difficulty goal daily_hours learning_style
            motivational_tips := _generate_motivational_tips total_days goal },
    ?_, ?_, ?_, ?_⟩
  · simp only [generate_plan, halloc, _generate_sessions, hss]
  · show ss.length = total_days.toNat
    have := congrArg List.length hdates
    simpa using this
  · exact hdates
  · show (ss.map (fun s => s.date)).Pairwise (· < ·)
    rw [hdates, List.pairwise_map]
    exact (List.pairwise_lt_range _).imp (fun h => by omega)

/-- Witness for C1 at topics `["A"]`, 2 days, 1 hour/day, generation day 0. -/
theorem c1_witness :
    (["A"] : List String) ≠ [] ∧ (0 : ℤ) < 2 ∧ (0 : ℚ) < 1 ∧
      totalWeight ["A"] ((none : Option (String → ℤ)).getD (fun _ => 0))
        ((none : Option (List String)).getD []) ≠ 0 ∧
      (∃ p, generate_plan "S" ["A"] .exam_prep .beginner 2 1 none .morning "visual"
          none none true 0 = .ok p ∧
        p.sessions.length = (2 : ℤ).toNat ∧
        p.sessions.map (fun s => s.date) =
          (List.range (2 : ℤ).toNat).map (fun d => 0 + d) ∧
        (p.sessions.map (fun s => s.date)).Pairwise (· < ·)) :=
  ⟨by decide, by decide, by norm_num, by norm_num [totalWeight, weightOf],
    c1_sessions_and_dates "S" ["A"] .exam_prep .beginner 2 1 none .morning "visual"
      none none true 0 (by decide) (by decide) (by norm_num)
      (by norm_num [totalWeight, weightOf])⟩

/-- C2: with duplicate-free topics and a positive total weight, the
allocation succeeds, has exactly one entry per input topic (keys are the
topic list itself, duplicate-free), its values sum exactly (over `ℚ`) to
`total_days * daily_hours`, and every entry is proportional to its weight
`(100 - knowledge) * weak_boost * spaced_boost` (cross-multiplied form). -/
theorem c2_allocation (topics : List String) (total_days : ℤ) (daily_hours : ℚ)
    (current_knowledge : String → ℤ) (weak_areas : List String)
    (hnd : topics.Nodup)
    (hw : 0 < totalWeight topics current_knowledge weak_areas) :
    ∃ alloc, _calculate_topic_allocation topics total_days daily_hours
        current_knowledge weak_areas = .ok alloc ∧
      alloc.map Prod.fst = topics ∧
      (alloc.map Prod.fst).Nodup ∧
      (alloc.map Prod.snd).sum = (total_days : ℚ) * daily_hours ∧
      ∀ t h, (t, h) ∈ alloc →
        h * totalWeight topics current_knowledge weak_areas =
          weightOf current_knowledge weak_areas t * ((total_days : ℚ) * daily_hours) := by
  have hne : topics ≠ [] := by
    rintro rfl
    simp [totalWeight] at hw
  refine ⟨topics.map (fun topic =>
      (topic, weightOf current_knowledge weak_areas topic /
        totalWeight topics current_knowledge weak_areas *
        ((total_days : ℚ) * daily_hours))), ?_, ?_, ?_, ?_, ?_⟩
  · simp only [_calculate_topic_allocation]
    rw [if_neg (by simpa using hne), if_neg (ne_of_gt hw)]
  · rw [List.map_map,
      show (Prod.fst ∘ fun topic =>
        (topic, weightOf current_knowledge weak_areas topic /
          totalWeight topics current_knowledge weak_areas *
          ((total_days : ℚ) * daily_hours))) = id from rfl, List.map_id]
  · rw [List.map_map,
      show (Prod.fst ∘ fun topic =>
        (topic, weightOf current_knowledge weak_areas topic /
          totalWeight topics current_knowledge weak_areas *
          ((total_days : ℚ) * daily_hours))) = id from rfl, List.map_id]
    exact hnd
  · rw [List.map_map]
    show (topics.map (fun topic => weightOf current_knowledge weak_areas topic /
      totalWeight topics current_knowledge weak_areas *
      ((total_days : ℚ) * daily_hours))).sum = (total_days : ℚ) * daily_hours
    have hrw : (fun topic => weightOf current_knowledge weak_areas topic /
        totalWeight topics current_knowledge weak_areas *
        ((total_days : ℚ) * daily_hours)) =
        fun topic => weightOf current_knowledge weak_areas topic *
          (((total_days : ℚ) * daily_hours) /
            totalWeight topics current_knowledge weak_areas) := by
      funext t
      ring
    rw [hrw, List.sum_map_mul_right]
    show totalWeight topics current_knowledge weak_areas *
      (((total_days : ℚ) * daily_hours) / totalWeight topics current_knowledge weak_areas) =
      (total_days : ℚ) * daily_hours
    rw [mul_comm, div_mul_cancel₀ _ (ne_of_gt hw)]
  · intro t h hmem
    simp only [List.mem_map] at hmem
    obtain ⟨a, ha, heq⟩ := hmem
    rw [Prod.mk.injEq] at heq
    obtain ⟨h1, h2⟩ := heq
    subst h1
    subst h2
    have hW := ne_of_gt hw
    field_simp

/-- Witness for C2 at two fresh topics with default knowledge. -/
theorem c2_witness :
    (["A", "B"] : List String).Nodup ∧
      (0 : ℚ) < totalWeight ["A", "B"] (fun _ => 0) [] ∧
      (∃ alloc, _calculate_topic_allocation ["A", "B"] 10 2 (fun _ => 0) [] = .ok alloc ∧
        alloc.map Prod.fst = ["A", "B"] ∧
        (alloc.map Prod.fst).Nodup ∧
        (alloc.map Prod.snd).sum = ((10 : ℤ) : ℚ) * 2 ∧
        ∀ t h, (t, h) ∈ alloc →
          h * totalWeight ["A", "B"] (fun _ => 0) [] =
            weightOf (fun _ => 0) [] t * (((10 : ℤ) : ℚ) * 2)) :=
  ⟨by decide, by norm_num [totalWeight, weightOf],
    c2_allocation ["A", "B"] 10 2 (fun _ => 0) [] (by decide)
      (by norm_num [totalWeight, weightOf])⟩

/-- Counterexample for C3 as stated: at duration 100 the breaks fall after
25, 55 and 85 minutes of wall-clock session time (the loop advances
`elapsed` by work plus break), not after 25, 50 and 75. -/
theorem c3_counterexample :
    (_calculate_breaks 100).map (fun b => b.after_minutes) ≠ [25, 50, 75] := by
  decide

/-- C3 amended: `_calculate_breaks 100` returns exactly three 5-minute
short breaks, with `after_minutes` 25, 55, 85 — and no trailing break at the
exact boundary; a duration of exactly 25 produces no breaks. -/
theorem c3_breaks_amended :
    _calculate_breaks 100 =
      [⟨25, 5, "short"⟩, ⟨55, 5, "short"⟩, ⟨85, 5, "short"⟩] ∧
    _calculate_breaks 25 = [] := by
  constructor <;> decide

/-- C5: difficulty progression for `total_days = 30`, base `intermediate`:
day 5 → beginner, day 15 → intermediate, day 25 → advanced, day 29 →
advanced (the two top bands compute the same capped index). -/
theorem c5_difficulty_progression :
    _get_session_difficulty .intermediate 5 30 = "beginner" ∧
    _get_session_difficulty .intermediate 15 30 = "intermediate" ∧
    _get_session_difficulty .intermediate 25 30 = "advanced" ∧
    _get_session_difficulty .intermediate 29 30 = "advanced" := by
  have h : List.indexOf "intermediate" difficulties = 1 := by rfl
  refine ⟨?_, ?_, ?_, ?_⟩ <;>
    norm_num [_get_session_difficulty, DifficultyLevel.value, h] <;> rfl

/-- C6 (the code has no validation): `generate_plan` with `total_days = 0`
returns a plan with zero sessions and raises nothing, and with an empty
topic list it raises `ValueError` from `max()` inside the first loop
iteration of session generation — in neither case a fail-fast validation
error. -/
theorem c6_no_validation :
    (sessionsOf (generate_plan "S" ["A"] .exam_prep .beginner 0 2 none .morning
        "visual" none none true 0) = [] ∧
      errorOf (generate_plan "S" ["A"] .exam_prep .beginner 0 2 none .morning
        "visual" none none true 0) = none) ∧
    generate_plan "S" [] .exam_prep .beginner 5 2 none .morning "visual" none
        none true 0 =
      .error "ValueError: max() arg is an empty sequence" := by
  refine ⟨⟨?_, ?_⟩, rfl⟩ <;>
    norm_num [generate_plan, _calculate_topic_allocation, totalWeight, weightOf,
      _generate_sessions, genSessionsAux, sessionsOf, errorOf]

/-- C7 (the division is not guarded): with one topic at knowledge 100 and no
weak areas, all weights are zero and `_calculate_topic_allocation` raises
`ZeroDivisionError` — a crash, not a validation error or fallback. -/
theorem c7_division_by_zero :
    errorOf (_calculate_topic_allocation ["A"] 10 2 (fun _ => 100) []) =
      some "ZeroDivisionError: float division by zero" := by
  norm_num [_calculate_topic_allocation, totalWeight, weightOf, errorOf]

/-- C9 amended: every session of every generated plan has
`duration_minutes = int(daily_hours * 60)` — Python truncation toward zero,
the same flat value on every day. -/
theorem c9_amended_flat_truncated_duration (subject : String) (topics : List String)
    (goal : StudyGoal) (difficulty : DifficultyLevel) (total_days : ℤ)
    (daily_hours : ℚ) (exam_date : Option String)
    (time_preference : TimePreference) (learning_style : String)
    (current_knowledge : Option (String → ℤ)) (weak_areas : Option (List String))
    (breaks_enabled : Bool) (start_date : ℕ) :
    ∀ s ∈ sessionsOf (generate_plan subject topics goal difficulty total_days
        daily_hours exam_date time_preference learning_style current_knowledge
        weak_areas breaks_enabled start_date),
      s.duration_minutes = pyInt (daily_hours * 60) := by
  intro s hs
  simp only [generate_plan] at hs
  split at hs
  · simp [sessionsOf] at hs
  · split at hs
    · simp [sessionsOf] at hs
    · rename_i ss hss
      simp only [sessionsOf] at hs
      simp only [_generate_sessions] at hss
      exact ((genAux_spec _ _ _ _ _ _ _ _ _ _ _ _ _ _ hss).2 s hs).1

/-- C10: every session of every plan `generate_plan` can produce is
estimated "Medium" or "Low" — the engine's slots start at hours
6, 7, 14, 18 or 21, none of which lies in the High bands `[9,11]` or
`[15,17]`, so "High" and "Medium-High" are unreachable. -/
theorem c10_focus_levels (subject : String) (topics : List String)
    (goal : StudyGoal) (difficulty : DifficultyLevel) (total_days : ℤ)
    (daily_hours : ℚ) (exam_date : Option String)
    (time_preference : TimePreference) (learning_style : String)
    (current_knowledge : Option (String → ℤ)) (weak_areas : Option (List String))
    (breaks_enabled : Bool) (start_date : ℕ) :
    ∀ s ∈ sessionsOf (generate_plan subject topics goal difficulty total_days
        daily_hours exam_date time_preference learning_style current_knowledge
        weak_areas breaks_enabled start_date),
      s.estimated_focus_level = "Medium" ∨ s.estimated_focus_level = "Low" := by
  intro s hs
  simp only [generate_plan] at hs
  split at hs
  · simp [sessionsOf] at hs
  · split at hs
    · simp [sessionsOf] at hs
    · rename_i ss hss
      simp only [sessionsOf] at hs
      simp only [_generate_sessions] at hss
      exact ((genAux_spec _ _ _ _ _ _ _ _ _ _ _ _ _ _ hss).2 s hs).2

/-- Concrete one-day generation run evaluated in full: it produces exactly
the session `sWit`. -/
lemma sessions_eval :
    sessionsOf (generate_plan "S" ["A"] .exam_prep .beginner 1 1 none .morning
      "visual" none none false 0) = [sWit] := by
  norm_num [generate_plan, _calculate_topic_allocation, totalWeight, weightOf,
    _generate_sessions, genSessionsAux, _select_topic_for_day, argmaxTopic, argmaxGo,
    _get_optimal_time_slot, pyInt, fmt2, _get_session_difficulty, difficulties,
    DifficultyLevel.value, _select_study_techniques, study_techniques_table,
    style_techniques_table, _generate_subtopics, _generate_session_goals,
    _get_learning_resources, _estimate_focus_level, hourOf, parseNat, parseNatAux,
    digitVal, _get_pre_session_prep, prepsList, _get_post_session_review, reviewsList,
    lookupAlloc, sessionsOf, sWit]
  decide

/-- Counterexample for C9 as stated: at `daily_hours = 0.51` the generated
session lasts 30 minutes (`int(30.6)` truncates) while
`round(daily_hours * 60) = 31`. -/
theorem c9_counterexample :
    (sessionsOf (generate_plan "S" ["A"] .exam_prep .beginner 1 (51 / 100) none
        .morning "visual" none none false 0)).map (fun s => s.duration_minutes) =
      [30] ∧
    (30 : ℤ) ≠ round ((51 / 100 : ℚ) * 60) := by
  constructor
  · norm_num [generate_plan, _calculate_topic_allocation, totalWeight, weightOf,
      _generate_sessions, genSessionsAux, _select_topic_for_day, argmaxTopic, argmaxGo,
      _get_optimal_time_slot, pyInt, fmt2, _get_session_difficulty, difficulties,
      DifficultyLevel.value, _select_study_techniques, study_techniques_table,
      style_techniques_table, _generate_subtopics, _generate_session_goals,
      _get_learning_resources, _estimate_focus_level, hourOf, parseNat, parseNatAux,
      digitVal, _get_pre_session_prep, prepsList, _get_post_session_review, reviewsList,
      lookupAlloc, sessionsOf]
    decide
  · norm_num [round_eq]

/-- Witness for the amended C9 at a concrete run. -/
theorem c9_witness : sWit.duration_minutes = pyInt ((1 : ℚ) * 60) :=
  c9_amended_flat_truncated_duration "S" ["A"] .exam_prep .beginner 1 1 none .morning
    "visual" none none false 0 sWit
    (by rw [sessions_eval]; exact List.mem_singleton.mpr rfl)

/-- Witness for C10 at a concrete run. -/
theorem c10_witness :
    sWit.estimated_focus_level = "Medium" ∨ sWit.estimated_focus_level = "Low" :=
  c10_focus_levels "S" ["A"] .exam_prep .beginner 1 1 none .morning "visual" none
    none false 0 sWit (by rw [sessions_eval]; exact List.mem_singleton.mpr rfl)


/-- The inner session loop is the identity when no session carries the
requested date. -/
lemma updateSessionInList_id (sessions : List StudySession) (session_date : ℕ)
    (completed : Bool) (notes : String) (now : String)
    (h : ∀ s ∈ sessions, s.date ≠ session_date) :
    updateSessionInList sessions session_date completed notes now = sessions := by
  induction sessions with
  | nil => rfl
  | cons s rest ih =>
    simp only [updateSessionInList]
    rw [if_neg (h s (List.mem_cons_self s rest)),
      ih (fun t ht => h t (List.mem_cons_of_mem _ ht))]

/-- The pointwise-update map is the identity when no session carries the
requested date. -/
lemma mapUpdate_sessions_id (sessions : List StudySession) (session_date : ℕ)
    (completed : Bool) (notes : String) (now : String)
    (h : ∀ s ∈ sessions, s.date ≠ session_date) :
    sessions.map (fun s => if s.date = session_date then
      { s with completed := completed, notes := notes, completed_at := some now }
      else s) = sessions := by
  induction sessions with
  | nil => rfl
  | cons s rest ih =>
    simp only [List.map_cons]
    rw [if_neg (h s (List.mem_cons_self s rest)),
      ih (fun t ht => h t (List.mem_cons_of_mem _ ht))]

/-- With duplicate-free session dates, the source's first-match update of a
session list is exactly the pointwise update of the matching session's
`completed`, `notes` and `completed_at` fields. -/
lemma updateSessionInList_map (sessions : List StudySession) (session_date : ℕ)
    (completed : Bool) (notes : String) (now : String)
    (hnd : (sessions.map (fun s => s.date)).Nodup) :
    updateSessionInList sessions session_date completed notes now =
      sessions.map (fun s => if s.date = session_date then
        { s with completed := completed, notes := notes, completed_at := some now }
        else s) := by
  induction sessions with
  | nil => rfl
  | cons s rest ih =>
    simp only [List.map_cons, List.nodup_cons] at hnd
    simp only [updateSessionInList, List.map_cons]
    by_cases hs : s.date = session_date
    · rw [if_pos hs, if_pos hs]
      congr 1
      refine (mapUpdate_sessions_id rest session_date completed notes now ?_).symm
      intro t ht hc
      exact hnd.1 (by rw [hs, ← hc]; exact List.mem_map_of_mem (fun s => s.date) ht)
    · rw [if_neg hs, if_neg hs]
      congr 1
      exact ih hnd.2

/-- The pointwise plan update is the identity when no plan carries the
requested id. -/
lemma mapUpdate_plans_id (plans : List StudyPlan) (plan_id : String)
    (F : StudyPlan → StudyPlan) (h : ∀ p ∈ plans, p.plan_id ≠ plan_id) :
    plans.map (fun p => if p.plan_id = plan_id then F p else p) = plans := by
  induction plans with
  | nil => rfl
  | cons p rest ih =>
    simp only [List.map_cons]
    rw [if_neg (h p (List.mem_cons_self p rest)),
      ih (fun q hq => h q (List.mem_cons_of_mem _ hq))]

/-- The outer plan loop is the identity when the requested date occurs in no
id-matching plan. -/
lemma updatePlanList_id (store : List StudyPlan) (plan_id : String)
    (session_date : ℕ) (completed : Bool) (notes : String) (now : String)
    (h : ∀ p ∈ store, p.plan_id = plan_id → ∀ s ∈ p.sessions, s.date ≠ session_date) :
    updatePlanList store plan_id session_date completed notes now = store := by
  induction store with
  | nil => rfl
  | cons p rest ih =>
    simp only [updatePlanList]
    by_cases hp : p.plan_id = plan_id
    · rw [if_pos hp,
        updateSessionInList_id _ _ _ _ _ (h p (List.mem_cons_self p rest) hp)]
    · rw [if_neg hp, ih (fun q hq => h q (List.mem_cons_of_mem _ hq))]

/-- With duplicate-free plan ids and per-plan duplicate-free dates, the
source's first-match store walk is exactly the pointwise update of the
matching plan's matching session. -/
lemma updatePlanList_map (store : List StudyPlan) (plan_id : String)
    (session_date : ℕ) (completed : Bool) (notes : String) (now : String)
    (hid : (store.map (fun p => p.plan_id)).Nodup)
    (hdates : ∀ p ∈ store, (p.sessions.map (fun s => s.date)).Nodup) :
    updatePlanList store plan_id session_date completed notes now =
      store.map (fun p => if p.plan_id = plan_id then
        { p with sessions := p.sessions.map (fun s => if s.date = session_date then
            { s with completed := completed, notes := notes, completed_at := some now }
            else s) } else p) := by
  induction store with
  | nil => rfl
  | cons p rest ih =>
    simp only [List.map_cons, List.nodup_cons] at hid
    simp only [updatePlanList, List.map_cons]
    by_cases hp : p.plan_id = plan_id
    · rw [if_pos hp, if_pos hp,
        updateSessionInList_map _ _ _ _ _ (hdates p (List.mem_cons_self p rest))]
      congr 1
      refine (mapUpdate_plans_id rest plan_id _ ?_).symm
      intro q hq hc
      exact hid.1 (by rw [hp, ← hc]; exact List.mem_map_of_mem (fun p => p.plan_id) hq)
    · rw [if_neg hp, if_neg hp, ih hid.2
        (fun q hq => hdates q (List.mem_cons_of_mem _ hq))]

/-- Counterexample for C8 as stated: updating a date absent from the stored
plan leaves the store unchanged but still returns `true` — the success
value; the source reports no not-found signal (its `Bool` result only
distinguishes I/O failure). -/
theorem c8_counterexample :
    update_session_progress [pWit] "p1" 1 true "note" "now" = ([pWit], true) := rfl

/-- C8 amended: updating a date present in no id-matching plan leaves the
whole store unchanged and returns success (`true`) — a silent no-op, not a
not-found signal; with unique plan ids and unique per-plan dates, updating a
present date sets exactly `completed`, `notes` and `completed_at := now` on
the matching session, leaving its other fields, the other sessions and the
other plans untouched (and again returns `true`). -/
theorem c8_amended :
    (∀ (store : List StudyPlan) (plan_id : String) (session_date : ℕ)
       (completed : Bool) (notes now : String),
      (∀ p ∈ store, p.plan_id = plan_id → ∀ s ∈ p.sessions, s.date ≠ session_date) →
      update_session_progress store plan_id session_date completed notes now =
        (store, true)) ∧
    (∀ (store : List StudyPlan) (plan_id : String) (session_date : ℕ)
       (completed : Bool) (notes now : String),
      (store.map (fun p => p.plan_id)).Nodup →
      (∀ p ∈ store, (p.sessions.map (fun s => s.date)).Nodup) →
      update_session_progress store plan_id session_date completed notes now =
        (store.map (fun p => if p.plan_id = plan_id then
          { p with sessions := p.sessions.map (fun s => if s.date = session_date then
              { s with completed := completed, notes := notes, completed_at := some now }
              else s) } else p), true)) := by
  constructor
  · intro store plan_id session_date completed notes now h
    simp only [update_session_progress,
      updatePlanList_id store plan_id session_date completed notes now h]
  · intro store plan_id session_date completed notes now hid hdates
    simp only [update_session_progress,
      updatePlanList_map store plan_id session_date completed notes now hid hdates]

/-- Witness for the amended C8: the concrete store `[pWit]`, once with the
absent date 1 (unchanged, success) and once with the present date 0 (only
the completion fields of that session change). -/
theorem c8_witness :
    update_session_progress [pWit] "p1" 1 true "n2" "t2" = ([pWit], true) ∧
      update_session_progress [pWit] "p1" 0 true "n2" "t2" =
        ([{ pWit with
              sessions := [{ sWit with
                              completed := true
                              notes := "n2"
                              completed_at := some "t2" }] }], true) :=
  ⟨c8_amended.1 [pWit] "p1" 1 true "n2" "t2" (by decide),
    c8_amended.2 [pWit] "p1" 0 true "n2" "t2" (by decide) (by decide)⟩

end EduTech
